import Mathlib

/-!
Shallow embedding of the gas-fee estimation and polling engine
(`fetchFeeHistory.ts`, `GasFeeController.ts`,
`fetchGasEstimatesViaEthFeeHistory.ts`).

JavaScript numbers are embedded as exact rationals (`ℚ`); where a claim is
specifically about the narrowing of an arbitrary-precision integer to an IEEE
double (the `parseInt` step of `hexToDec`), that rounding step is modelled
explicitly on integers by `roundToDouble`.
-/

/-- Floor of the base-2 logarithm (fuel-driven structural recursion; fuel `n`
always suffices since the argument halves at every step). -/
def log2Aux : ℕ → ℕ → ℕ
  | 0, _ => 0
  | fuel + 1, n => if 2 ≤ n then log2Aux fuel (n / 2) + 1 else 0

/-- Floor of the base-2 logarithm of `n` (`0` for `n = 0`). -/
def natLog2 (n : ℕ) : ℕ := log2Aux n n

/-- Rounding of a nonnegative integer to the nearest IEEE-754 double
(round to nearest, ties to even).  Integers below `2 ^ 53` are exact; larger
ones are rounded to a multiple of the unit in the last place.  This models the
`parseInt(...)` narrowing inside the source's `hexToDec`. -/
def roundToDouble (n : ℕ) : ℕ :=
  if natLog2 n ≤ 52 then n
  else
    let ulp := 2 ^ (natLog2 n - 52)
    let q := n / ulp
    let r := n % ulp
    if 2 * r < ulp then q * ulp
    else if ulp < 2 * r then (q + 1) * ulp
    else if q % 2 = 0 then q * ulp else (q + 1) * ulp

/-- Value of one hexadecimal digit. -/
def hexDigitVal (c : Char) : ℕ :=
  if '0' ≤ c ∧ c ≤ '9' then c.toNat - '0'.toNat
  else if 'a' ≤ c ∧ c ≤ 'f' then c.toNat - 'a'.toNat + 10
  else if 'A' ≤ c ∧ c ≤ 'F' then c.toNat - 'A'.toNat + 10
  else 0

/-- The helper `stripHexPrefix` from `ethjs-util`: drop a leading `0x`. -/
def stripHexMark (s : String) : List Char :=
  match s.data with
  | '0' :: 'x' :: rest => rest
  | l => l

/-- The arbitrary-precision stage of the source's `hexToDec`:
`new BN(stripHexPrefix(hex), 16)`, i.e. the exact integer the hex string
encodes. -/
def hexDecodeBig (s : String) : ℕ :=
  (stripHexMark s).foldl (fun acc c => 16 * acc + hexDigitVal c) 0

/-- Function `hexToDec` from `fetchFeeHistory.ts`: exact big-integer decode followed by
`parseInt`, which narrows the decimal rendering to an IEEE double. -/
def hexToDec (s : String) : ℕ :=
  roundToDouble (hexDecodeBig s)

/-- JavaScript's numeric-comparator sort `xs.slice().sort((a, b) => a - b)`:
ascending order. -/
def sortNumbers {α : Type} [LinearOrder α] (l : List α) : List α :=
  l.insertionSort (· ≤ ·)

/-! ### `fetchFeeHistory` -/

/-- Response data for `eth_feeHistory`.  Hex quantities stay as strings;
`gasUsedRatio` entries are JSON numbers. -/
structure EthFeeHistoryResponse where
  oldestBlock : String
  baseFeePerGas : List String
  gasUsedRatio : List ℚ
  reward : List (List String)
  deriving DecidableEq

/-- One block of the fetcher's output.  `priorityFeesByPercentile` is the
percentile-keyed record, kept as an association list in insertion order. -/
structure BlockFeeHistory where
  baseFeePerGas : ℕ
  gasUsedRatio : ℚ
  priorityFeesByPercentile : List (ℕ × ℕ)
  deriving DecidableEq, Inhabited

/-- The fetcher's output shape. -/
structure FeeHistory where
  startBlockId : String
  blocks : List BlockFeeHistory
  deriving DecidableEq

/-- Function `fetchFeeHistory` from `fetchFeeHistory.ts`, applied to the already
received RPC response.  Percentiles are de-duplicated and sorted ascending
(`Array.from(new Set(...)).sort((a, b) => a - b)`); the base-fee array is cut
to the first `numberOfBlocks` entries; each block pairs the sorted percentiles
positionally with its reward row.  The `getD` defaults stand for JavaScript's
out-of-range `undefined` and are never reached on a well-formed response. -/
def fetchFeeHistory (numberOfBlocks : ℕ) (givenPercentiles : List ℕ)
    (response : EthFeeHistoryResponse) : FeeHistory :=
  let percentiles := sortNumbers givenPercentiles.dedup
  let startBlockId := response.oldestBlock
  if 0 < response.baseFeePerGas.length ∧ 0 < response.gasUsedRatio.length ∧
      0 < response.reward.length then
    let baseFeesPerGasAsHex := response.baseFeePerGas.take numberOfBlocks
    let blocks := baseFeesPerGasAsHex.mapIdx fun blockIndex baseFeePerGasAsHex =>
      { baseFeePerGas := hexToDec baseFeePerGasAsHex
        gasUsedRatio := response.gasUsedRatio.getD blockIndex 0
        priorityFeesByPercentile :=
          percentiles.mapIdx fun percentileIndex percentile =>
            (percentile,
             hexToDec ((response.reward.getD blockIndex []).getD percentileIndex "0x0")) }
    { startBlockId := startBlockId, blocks := blocks }
  else
    { startBlockId := startBlockId, blocks := [] }

/-! ### `fetchGasEstimatesViaEthFeeHistory` (median and per-tier estimates) -/

/-- Function `medianOf` from `fetchGasEstimatesViaEthFeeHistory.ts`: sort ascending,
middle element for odd length, mean of the two central elements for even
length. -/
def medianOf (numbers : List ℚ) : ℚ :=
  let sortedNumbers := sortNumbers numbers
  let len := sortedNumbers.length
  if len % 2 = 0 then
    (sortedNumbers.getD (len / 2) 0 + sortedNumbers.getD (len / 2 - 1) 0) / 2
  else
    sortedNumbers.getD ((len - 1) / 2) 0

/-- One tier's row of `SETTINGS_BY_PRIORITY_LEVEL`. -/
structure PrioritySettings where
  percentile : ℕ
  priorityFeeReduction : ℚ
  minSuggestedMaxPriorityFeePerGas : ℚ
  baseFeeMultiplier : ℚ
  minWaitTimeEstimate : ℕ
  maxWaitTimeEstimate : ℕ
  deriving DecidableEq

/-- The three priority tiers. -/
inductive PriorityLevel
  | low
  | medium
  | high
  deriving DecidableEq

/-- The p-adic valuation of `n` (fuel-driven; for `2 ≤ p` the valuation is at
most the base-2 logarithm of `n`, so `natLog2 n + 1` fuel always suffices). -/
def pValAux : ℕ → ℕ → ℕ → ℕ
  | 0, _, _ => 0
  | fuel + 1, p, n =>
    if 2 ≤ p ∧ n ≠ 0 ∧ n % p = 0 then pValAux fuel p (n / p) + 1 else 0

/-- The p-adic valuation of `n`. -/
def pVal (p n : ℕ) : ℕ := pValAux (natLog2 n + 1) p n

/-- Number of digits after the decimal point in the exact decimal expansion of
a rational with denominator `2 ^ a * 5 ^ b`. -/
def fracDigitsCount (den : ℕ) : ℕ := max (pVal 2 den) (pVal 5 den)

/-- The decimal digit characters. -/
def decDigitChar : ℕ → Char
  | 0 => '0'
  | 1 => '1'
  | 2 => '2'
  | 3 => '3'
  | 4 => '4'
  | 5 => '5'
  | 6 => '6'
  | 7 => '7'
  | 8 => '8'
  | _ => '9'

/-- Decimal digits of `n`, most significant first (fuel-driven; a number has
at most `natLog2 n + 1` decimal digits). -/
def natDigitsAux : ℕ → ℕ → List Char
  | 0, _ => []
  | fuel + 1, n =>
    if n = 0 then [] else natDigitsAux fuel (n / 10) ++ [decDigitChar (n % 10)]

/-- Render a natural number in decimal. -/
def natToDecString (n : ℕ) : String :=
  if n = 0 then "0" else String.mk (natDigitsAux (natLog2 n + 1) n)

/-- Left-pad a digit string with zeros to length `k`. -/
def padLeftZeros (s : String) (k : ℕ) : String :=
  String.mk (List.replicate (k - s.length) '0') ++ s

/-- The exact decimal rendering of a nonnegative rational whose decimal
expansion terminates: all fractional digits, no trailing zeros, no decimal
point for integers.  This is the reference "full fractional precision"
renderer; the program itself renders through `jsDoubleToString` below. -/
def ratToDecString (q : ℚ) : String :=
  let k := fracDigitsCount q.den
  let scaled := (q * (10 : ℚ) ^ k).num.toNat
  let intPart := scaled / 10 ^ k
  let fracPart := scaled % 10 ^ k
  if k = 0 then natToDecString intPart
  else natToDecString intPart ++ "." ++ padLeftZeros (natToDecString fracPart) k

/-! ### IEEE-754 double model

JavaScript numbers are IEEE-754 doubles.  A finite double is represented here
by its exact rational value; `roundRatToDouble` is the rounding (to nearest,
ties to even) a double operation applies to the exact result, and the
`double*` operations below are the IEEE operations on the normal range (the
values this pipeline handles are all normal and far from overflow). -/

/-- Two to an integer power, as a rational. -/
def qpow2 (e : ℤ) : ℚ :=
  if 0 ≤ e then ((2 ^ e.toNat : ℕ) : ℚ) else 1 / ((2 ^ (-e).toNat : ℕ) : ℚ)

/-- Ten to an integer power, as a rational. -/
def qpow10 (e : ℤ) : ℚ :=
  if 0 ≤ e then ((10 ^ e.toNat : ℕ) : ℚ) else 1 / ((10 ^ (-e).toNat : ℕ) : ℚ)

/-- Floor of the base-2 logarithm of a positive rational. -/
def ratFloorLog2 (q : ℚ) : ℤ :=
  let d : ℤ := (natLog2 q.num.toNat : ℤ) - (natLog2 q.den : ℤ)
  if qpow2 d ≤ q then d else d - 1

/-- Round a nonnegative rational to the nearest integer, ties to even. -/
def roundHalfEven (q : ℚ) : ℤ :=
  let n : ℤ := q.num / (q.den : ℤ)
  let frac : ℚ := q - (n : ℚ)
  if frac < 1 / 2 then n
  else if 1 / 2 < frac then n + 1
  else if n % 2 = 0 then n else n + 1

/-- Round a nonnegative rational to the nearest IEEE-754 double (round to
nearest, ties to even): the unique rounding of the form `m · 2 ^ e` with a
53-bit significand `m`. -/
def roundRatToDouble (q : ℚ) : ℚ :=
  if q ≤ 0 then 0
  else
    let e := ratFloorLog2 q - 52
    (roundHalfEven (q / qpow2 e) : ℚ) * qpow2 e

/-- IEEE-double multiplication on exact values. -/
def doubleMul (x y : ℚ) : ℚ := roundRatToDouble (x * y)

/-- IEEE-double addition on exact values. -/
def doubleAdd (x y : ℚ) : ℚ := roundRatToDouble (x + y)

/-- IEEE-double subtraction on exact values (nonnegative results). -/
def doubleSub (x y : ℚ) : ℚ := roundRatToDouble (x - y)

/-- IEEE-double division on exact values. -/
def doubleDiv (x y : ℚ) : ℚ := roundRatToDouble (x / y)

/-! ### JavaScript `Number.prototype.toString`

ECMA-262 `Number::toString` (radix 10, fixed notation, positive values):
print the shortest digit string `s` of `k` digits with `s · 10 ^ (n − k)`
reading back as exactly the given double, preferring the candidate closest to
the double's exact value, ties broken toward an even `s`. -/

/-- The decimal exponent search for values `≥ 1`: the smallest `n` with
`v < 10 ^ n` (fuel-driven; the values at hand are far below `10 ^ 400`). -/
def decimalExpAux : ℕ → ℚ → ℤ → ℤ
  | 0, _, n => n
  | fuel + 1, v, n => if v < qpow10 n then n else decimalExpAux fuel v (n + 1)

/-- The decimal exponent search for values in `(0, 1)`: the smallest `j` with
`1 ≤ v · 10 ^ (j + 1)` (the value then lies in `[10 ^ (−j−1), 10 ^ (−j))`). -/
def negDecimalExpAux : ℕ → ℚ → ℕ → ℕ
  | 0, _, j => j
  | fuel + 1, v, j =>
    if 1 ≤ v * qpow10 (j + 1) then j else negDecimalExpAux fuel v (j + 1)

/-- The decimal exponent `n` of a positive rational: `10 ^ (n − 1) ≤ v < 10 ^ n`. -/
def decimalExp (v : ℚ) : ℤ :=
  if 1 ≤ v then decimalExpAux 400 v 1 else -(negDecimalExpAux 400 v 0 : ℤ)

/-- Whether `x` parses back to the double whose rounding interval is
`[low, high]` (closed for an even significand, open for an odd one). -/
def inRoundInterval (closed : Bool) (low high x : ℚ) : Bool :=
  if closed then decide (low ≤ x ∧ x ≤ high) else decide (low < x ∧ x < high)

/-- Distance between `x` and `v`. -/
def absDist (x v : ℚ) : ℚ := if v ≤ x then x - v else v - x

/-- Of two decimal candidates, the one whose value is closest to `v`;
ties prefer the even candidate. -/
def betterCandidate (v step : ℚ) (a b : ℤ) : ℤ :=
  let da := absDist ((a : ℚ) * step) v
  let db := absDist ((b : ℚ) * step) v
  if da < db then a
  else if db < da then b
  else if a % 2 = 0 then a else b

/-- Search for the shortest significand: at each digit count `k`, the nearest
`k`-digit decimals to `v` (`s₀ − 1`, `s₀`, `s₀ + 1`) are tested against the
round-trip interval; the first `k` with a surviving candidate wins. -/
def shortestDigitsAux : ℕ → ℚ → ℚ → ℚ → Bool → ℤ → ℕ → ℤ × ℕ
  | 0, _, _, _, _, _, _ => (0, 0)
  | fuel + 1, v, low, high, closed, n, k =>
    let step := qpow10 (n - k)
    let s0 := roundHalfEven (v / step)
    let candidates : List ℤ := [s0 - 1, s0, s0 + 1].filter fun s =>
      decide (0 < s) && inRoundInterval closed low high ((s : ℚ) * step)
    match candidates with
    | [] => shortestDigitsAux fuel v low high closed n (k + 1)
    | s :: rest => (rest.foldl (betterCandidate v step) s, k)

/-- Lay out the chosen digits with the decimal point at position `n` (fixed
notation; the pipeline's values stay far below `10 ^ 21`). -/
def renderDigits (s : ℕ) (n : ℤ) : String :=
  let digits := natDigitsAux (natLog2 s + 1) s
  let k : ℤ := (digits.length : ℤ)
  if k ≤ n then
    String.mk digits ++ String.mk (List.replicate (n - k).toNat '0')
  else if 0 < n then
    String.mk (digits.take n.toNat) ++ "." ++ String.mk (digits.drop n.toNat)
  else
    "0." ++ String.mk (List.replicate (-n).toNat '0') ++ String.mk digits

/-- JavaScript's `Number.prototype.toString` on a positive double value in the
fixed-notation range: the shortest round-tripping decimal. -/
def jsDoubleToString (v : ℚ) : String :=
  if v ≤ 0 then "0"
  else
    let e := ratFloorLog2 v - 52
    let m := roundHalfEven (v / qpow2 e)
    let closed := m % 2 = 0
    let predGap := if m = 2 ^ 52 then qpow2 (e - 1) else qpow2 e
    let low := v - predGap / 2
    let high := v + qpow2 e / 2
    let n := decimalExp v
    let (s, _) := shortestDigitsAux 17 v low high closed n 1
    renderDigits s.toNat n

/-- Function `weiToGwei`: divide by 1e9 (an IEEE-double division, as all
JavaScript arithmetic is). -/
def weiToGwei (wei : ℚ) : ℚ := doubleDiv wei 1000000000

/-- The static tuning table of `fetchGasEstimatesViaEthFeeHistory.ts`.  The
fractional JavaScript literals (`0.06`, `1.2`, ...) denote the doubles nearest
those decimals, embedded via `roundRatToDouble`; the wei floors and wait times
are integers, which doubles represent exactly. -/
def SETTINGS_BY_PRIORITY_LEVEL : PriorityLevel → PrioritySettings
  | .low =>
    { percentile := 10, priorityFeeReduction := roundRatToDouble (6 / 100)
      minSuggestedMaxPriorityFeePerGas := 1000000000
      baseFeeMultiplier := roundRatToDouble (12 / 10)
      minWaitTimeEstimate := 15000, maxWaitTimeEstimate := 30000 }
  | .medium =>
    { percentile := 20, priorityFeeReduction := roundRatToDouble (3 / 100)
      minSuggestedMaxPriorityFeePerGas := 1500000000
      baseFeeMultiplier := roundRatToDouble (13 / 10)
      minWaitTimeEstimate := 15000, maxWaitTimeEstimate := 45000 }
  | .high =>
    { percentile := 30, priorityFeeReduction := roundRatToDouble (2 / 100)
      minSuggestedMaxPriorityFeePerGas := 2000000000
      baseFeeMultiplier := roundRatToDouble (14 / 10)
      minWaitTimeEstimate := 15000, maxWaitTimeEstimate := 60000 }

/-- Type `Eip1559GasFee`: wait-time bounds plus the two suggested fees rendered as
decimal gwei strings. -/
structure Eip1559GasFee where
  minWaitTimeEstimate : ℕ
  maxWaitTimeEstimate : ℕ
  suggestedMaxPriorityFeePerGas : String
  suggestedMaxFeePerGas : String
  deriving DecidableEq

/-- Record access `block.priorityFeesByPercentile[percentile]` on the aggregator's input
blocks (percentile-keyed records of rational fees). -/
def priorityFeeAt (block : List (ℕ × ℚ)) (percentile : ℕ) : ℚ :=
  (block.lookup percentile).getD 0

/-- Function `calculateGasEstimatesForPriorityLevel` from
`fetchGasEstimatesViaEthFeeHistory.ts`, with every arithmetic step an
IEEE-double operation and the rendering JavaScript's `toString`.  The median
step calls `medianOf`, which for the odd-length windows this aggregator is fed
(5 blocks, or any odd count) picks an element and performs no arithmetic. -/
def calculateGasEstimatesForPriorityLevel (priorityLevel : PriorityLevel)
    (latestBaseFeePerGas : ℚ) (blocks : List (List (ℕ × ℚ))) : Eip1559GasFee :=
  let settings := SETTINGS_BY_PRIORITY_LEVEL priorityLevel
  let adjustedBaseFee := doubleMul latestBaseFeePerGas settings.baseFeeMultiplier
  let priorityFees := blocks.map fun block => priorityFeeAt block settings.percentile
  let medianPriorityFee := medianOf priorityFees
  let adjustedPriorityFee :=
    doubleMul medianPriorityFee (doubleSub 1 settings.priorityFeeReduction)
  let suggestedMaxPriorityFeePerGas :=
    max adjustedPriorityFee settings.minSuggestedMaxPriorityFeePerGas
  let suggestedMaxFeePerGas := doubleAdd adjustedBaseFee suggestedMaxPriorityFeePerGas
  { minWaitTimeEstimate := settings.minWaitTimeEstimate
    maxWaitTimeEstimate := settings.maxWaitTimeEstimate
    suggestedMaxPriorityFeePerGas := jsDoubleToString (weiToGwei suggestedMaxPriorityFeePerGas)
    suggestedMaxFeePerGas := jsDoubleToString (weiToGwei suggestedMaxFeePerGas) }

/-- Type `GasFeeEstimates`: the three tiers plus the base-fee estimate string. -/
structure GasFeeEstimates where
  low : Eip1559GasFee
  medium : Eip1559GasFee
  high : Eip1559GasFee
  estimatedBaseFee : String
  deriving DecidableEq

/-- A fee-history block as consumed by the aggregator (JS-number fields). -/
structure QBlockFeeHistory where
  baseFeePerGas : ℚ
  priorityFeesByPercentile : List (ℕ × ℚ)
  deriving Inhabited

/-- Function `fetchGasEstimatesViaEthFeeHistory`, applied to the already fetched
5-block window: tier estimates from the latest block's base fee plus the
window's priority fees, and the latest base fee as `estimatedBaseFee`. -/
def fetchGasEstimatesViaEthFeeHistory (blocks : List QBlockFeeHistory) : GasFeeEstimates :=
  let latestBaseFeePerGas := (blocks.getLastD default).baseFeePerGas
  let feeRecords := blocks.map fun block => block.priorityFeesByPercentile
  { low := calculateGasEstimatesForPriorityLevel .low latestBaseFeePerGas feeRecords
    medium := calculateGasEstimatesForPriorityLevel .medium latestBaseFeePerGas feeRecords
    high := calculateGasEstimatesForPriorityLevel .high latestBaseFeePerGas feeRecords
    estimatedBaseFee := jsDoubleToString (weiToGwei latestBaseFeePerGas) }


/-! ### `GasFeeController` state and the congestion detector -/

/-- The values `gasEstimateType` ranges over. -/
inductive GasEstimateType
  | none
  | feeMarket
  | legacy
  | ethGasPrice
  deriving DecidableEq

/-- Type `EstimatedGasFeeTimeBounds` (a lower bound that may be `null` and an upper
bound that may be the string `"unknown"`, both collapsed to `Option`). -/
structure EstimatedGasFeeTimeBounds where
  lowerTimeBound : Option ℤ
  upperTimeBound : Option ℤ
  deriving DecidableEq

/-- Type `LegacyGasPriceEstimate`: three gwei decimal strings. -/
structure LegacyGasPriceEstimate where
  high : String
  medium : String
  low : String
  deriving DecidableEq

/-- Type `EthGasPriceEstimate`: one gwei decimal string. -/
structure EthGasPriceEstimate where
  gasPrice : String
  deriving DecidableEq

/-- The union of shapes the `gasFeeEstimates` state field takes (`{}` before
the first estimate). -/
inductive GasFeeEstimatesValue
  | empty
  | feeMarket (estimates : GasFeeEstimates)
  | legacy (estimates : LegacyGasPriceEstimate)
  | ethGasPrice (estimates : EthGasPriceEstimate)
  deriving DecidableEq

/-- The three estimate-related state fields (`GasFeeStateEstimates`).
`estimatedGasFeeTimeBounds = none` embeds the empty object `{}`. -/
structure GasFeeStateEstimates where
  gasFeeEstimates : GasFeeEstimatesValue
  estimatedGasFeeTimeBounds : Option EstimatedGasFeeTimeBounds
  gasEstimateType : GasEstimateType
  deriving DecidableEq

/-- The full controller state (`GasFeeState`). -/
structure GasFeeState extends GasFeeStateEstimates where
  isNetworkCongested : Bool
  deriving DecidableEq

/-- The controller's `defaultState`. -/
def defaultState : GasFeeState :=
  { gasFeeEstimates := .empty
    estimatedGasFeeTimeBounds := none
    gasEstimateType := .none
    isNetworkCongested := false }

/-- The controller's injected collaborators, with fallible calls embedded as
`Except` values: `.error` is a thrown exception, and
`getCurrentAccountEIP1559Compatibility = none` is the unset optional check. -/
structure FetchEnv where
  getCurrentNetworkEIP1559Compatibility : Except Unit Bool
  getCurrentAccountEIP1559Compatibility : Option Bool
  getCurrentNetworkLegacyGasAPICompatibility : Bool
  fetchGasEstimates : Except Unit GasFeeEstimates
  fetchLegacyGasPriceEstimates : Except Unit LegacyGasPriceEstimate
  fetchEthGasPriceEstimate : Except Unit EthGasPriceEstimate

/-- Method `getEIP1559Compatibility`: network check AND account check (defaulting to
`true` when unset); any error during evaluation yields `false`. -/
def getEIP1559Compatibility (env : FetchEnv) : Bool :=
  match env.getCurrentNetworkEIP1559Compatibility with
  | .error _ => false
  | .ok currentNetworkIsEIP1559Compatible =>
    currentNetworkIsEIP1559Compatible &&
      env.getCurrentAccountEIP1559Compatibility.getD true

/-- Method `getTimeEstimate`: `{}` unless the current state's `gasEstimateType` is
`fee-market` (the state's `gasFeeEstimates` object is always truthy), else the
external `calculateTimeEstimate` applied to the two fee strings and the
current state's `gasFeeEstimates`. -/
def getTimeEstimate (st : GasFeeState)
    (calculateTimeEstimate :
      String → String → GasFeeEstimatesValue → Option EstimatedGasFeeTimeBounds)
    (maxPriorityFeePerGas maxFeePerGas : String) : Option EstimatedGasFeeTimeBounds :=
  if st.gasEstimateType ≠ .feeMarket then none
  else calculateTimeEstimate maxPriorityFeePerGas maxFeePerGas st.gasFeeEstimates

/-- Method `_fetchGasFeeEstimateData`: EIP-1559 branch, else legacy branch, else
throw; any primary failure falls back to the single `eth_gasPrice` probe; a
probe failure throws to the caller.  Returns the thrown-or-returned
`GasFeeStateEstimates` together with the controller state after the call
(updated only on success and only when `shouldUpdateState`). -/
def fetchGasFeeEstimateData (env : FetchEnv)
    (calculateTimeEstimate :
      String → String → GasFeeEstimatesValue → Option EstimatedGasFeeTimeBounds)
    (st : GasFeeState) (shouldUpdateState : Bool) :
    Except String GasFeeStateEstimates × GasFeeState :=
  let isEIP1559Compatible := getEIP1559Compatibility env
  let primary : Except Unit GasFeeStateEstimates :=
    if isEIP1559Compatible then
      match env.fetchGasEstimates with
      | .error e => .error e
      | .ok estimates =>
        .ok { gasFeeEstimates := .feeMarket estimates
              estimatedGasFeeTimeBounds :=
                getTimeEstimate st calculateTimeEstimate
                  estimates.medium.suggestedMaxPriorityFeePerGas
                  estimates.medium.suggestedMaxFeePerGas
              gasEstimateType := .feeMarket }
    else if env.getCurrentNetworkLegacyGasAPICompatibility then
      match env.fetchLegacyGasPriceEstimates with
      | .error e => .error e
      | .ok estimates =>
        .ok { gasFeeEstimates := .legacy estimates
              estimatedGasFeeTimeBounds := none
              gasEstimateType := .legacy }
    else .error ()
  let newStateResult : Except String GasFeeStateEstimates :=
    match primary with
    | .ok newState => .ok newState
    | .error _ =>
      match env.fetchEthGasPriceEstimate with
      | .ok estimates =>
        .ok { gasFeeEstimates := .ethGasPrice estimates
              estimatedGasFeeTimeBounds := none
              gasEstimateType := .ethGasPrice }
      | .error _ => .error "Gas fee/price estimation failed."
  match newStateResult with
  | .error msg => (.error msg, st)
  | .ok newState =>
    (.ok newState,
     if shouldUpdateState then
       { st with
         gasFeeEstimates := newState.gasFeeEstimates
         estimatedGasFeeTimeBounds := newState.estimatedGasFeeTimeBounds
         gasEstimateType := newState.gasEstimateType }
     else st)

/-- The congestion computation on the fetched 100-block window: the
50th-percentile fee of each block (`Map.get(50)`), blocks lacking it
discarded (`filter(isNumber)`), sorted ascending; congested when the last
element is at least the IEEE-double product of the first with the literal
`1.1` (the double nearest `11 / 10`, slightly above it); `false` on an empty
sequence. -/
def networkCongestedOf (feeHistoryBlocks : List (List (ℕ × ℚ))) : Bool :=
  let sortedPriorityFees :=
    sortNumbers (feeHistoryBlocks.filterMap fun block => block.lookup 50)
  if 0 < sortedPriorityFees.length then
    let minPriorityFee := sortedPriorityFees.headD 0
    let maxPriorityFee := sortedPriorityFees.getLastD 0
    decide (doubleMul minPriorityFee (roundRatToDouble (11 / 10)) ≤ maxPriorityFee)
  else false

/-- Method `determineWhetherNetworkCongested`, applied to the already fetched window:
when fee-market compatible, compute the flag, write it into state and return
it; otherwise return `false` without touching state. -/
def determineWhetherNetworkCongested (env : FetchEnv)
    (feeHistoryBlocks : List (List (ℕ × ℚ))) (st : GasFeeState) :
    Bool × GasFeeState :=
  let isEIP1559Compatible := getEIP1559Compatibility env
  if isEIP1559Compatible then
    let isNetworkCongested := networkCongestedOf feeHistoryBlocks
    (isNetworkCongested, { st with isNetworkCongested := isNetworkCongested })
  else (false, st)

/-! ### The polling scheduler -/

/-- The two pollable item keys. -/
inductive PollItem
  | gasFeeEstimates
  | isNetworkCongested
  deriving DecidableEq

/-- Scheduler state: the poll queue (a set of keys), whether the timer is
scheduled (`intervalId !== undefined`), and — as instrumentation for counting
producer executions — the log of producer invocations. -/
structure PollerState where
  pollQueue : List PollItem
  intervalId : Bool
  producerRuns : List PollItem
  deriving DecidableEq

/-- Method `updateWithAndStartPollingFor`: if the item is not yet queued, run its
producer once (logged), add it to the queue and ensure the timer runs;
otherwise do nothing. -/
def updateWithAndStartPollingFor (st : PollerState) (item : PollItem) : PollerState :=
  if item ∈ st.pollQueue then st
  else
    { pollQueue := st.pollQueue ++ [item]
      intervalId := true
      producerRuns := st.producerRuns ++ [item] }

/-- Method `stopPolling`: cancel the timer and clear the poll queue. -/
def stopPolling (st : PollerState) : PollerState :=
  { st with intervalId := false, pollQueue := [] }

/-! ### Concrete fixtures used by witnesses and counterexamples -/

/-- A concrete fee-market gas-fee estimate set, shaped like the repository's
test fixture. -/
def sampleFeeMarketEstimates : GasFeeEstimates :=
  { low :=
      { minWaitTimeEstimate := 10000, maxWaitTimeEstimate := 20000
        suggestedMaxPriorityFeePerGas := "1", suggestedMaxFeePerGas := "10" }
    medium :=
      { minWaitTimeEstimate := 30000, maxWaitTimeEstimate := 40000
        suggestedMaxPriorityFeePerGas := "1.5", suggestedMaxFeePerGas := "20" }
    high :=
      { minWaitTimeEstimate := 50000, maxWaitTimeEstimate := 60000
        suggestedMaxPriorityFeePerGas := "2", suggestedMaxFeePerGas := "30" }
    estimatedBaseFee := "100" }

/-- An environment whose fee-market branch is chosen but throws, and whose
`eth_gasPrice` probe succeeds. -/
def envFeeMarketThrows : FetchEnv :=
  { getCurrentNetworkEIP1559Compatibility := .ok true
    getCurrentAccountEIP1559Compatibility := none
    getCurrentNetworkLegacyGasAPICompatibility := true
    fetchGasEstimates := .error ()
    fetchLegacyGasPriceEstimates := .ok { high := "30", medium := "20", low := "10" }
    fetchEthGasPriceEstimate := .ok { gasPrice := "1" } }

/-- The external time-estimation function used by the C9 counterexample:
always returns a nonempty bounds object. -/
def calcTimeAlwaysBounds :
    String → String → GasFeeEstimatesValue → Option EstimatedGasFeeTimeBounds :=
  fun _ _ _ => some { lowerTimeBound := some 15000, upperTimeBound := some 45000 }

/-- An environment whose fee-market fetch succeeds. -/
def envFeeMarketSucceeds : FetchEnv :=
  { getCurrentNetworkEIP1559Compatibility := .ok true
    getCurrentAccountEIP1559Compatibility := none
    getCurrentNetworkLegacyGasAPICompatibility := false
    fetchGasEstimates := .ok sampleFeeMarketEstimates
    fetchLegacyGasPriceEstimates := .error ()
    fetchEthGasPriceEstimate := .ok { gasPrice := "1" } }

/-- An environment that is not fee-market compatible. -/
def envIncompatible : FetchEnv :=
  { getCurrentNetworkEIP1559Compatibility := .ok false
    getCurrentAccountEIP1559Compatibility := none
    getCurrentNetworkLegacyGasAPICompatibility := false
    fetchGasEstimates := .error ()
    fetchLegacyGasPriceEstimates := .error ()
    fetchEthGasPriceEstimate := .error () }

/-- A state currently flagged congested. -/
def congestedState : GasFeeState :=
  { defaultState with isNetworkCongested := true }

/-- The `eth_feeHistory` response of the repository's round-trip test:
5 requested blocks, 6 base fees, 3 percentiles. -/
def sampleFeeHistoryResponse : EthFeeHistoryResponse :=
  { oldestBlock := "0xcb1939"
    baseFeePerGas :=
      ["0x16eb46a3bb", "0x14cd6f0628", "0x1763700ef2", "0x1477020d14",
       "0x129c9eb46b", "0x134002f480"]
    gasUsedRatio := [1, 1, 0, 1, 1]
    reward :=
      [["0x59682f00", "0x59682f00", "0x59682f00"],
       ["0x540ae480", "0x59682f00", "0x59682f00"],
       ["0x0", "0x0", "0x0"],
       ["0x3b9aca00", "0x3b9aca00", "0x3b9aca00"],
       ["0x59682f00", "0x59682f00", "0x59682f00"]] }

/-! ### Claims -/

/-! ### Helper lemmas -/

theorem roundToDouble_eq_of_lt {n : ℕ} (h : n < 2 ^ 53) : roundToDouble n = n := by
  have hlog : natLog2 n ≤ 52 := by
    have general : ∀ fuel n k : ℕ, n < 2 ^ (k + 1) → log2Aux fuel n ≤ k := by
      intro fuel
      induction fuel with
      | zero => intro n k _; simp [log2Aux]
      | succ fuel ih =>
        intro n k hn
        by_cases h2 : 2 ≤ n
        · rcases k with _ | k
          · omega
          · have hmul : n < 2 * 2 ^ (k + 1) := by
              have h' := hn
              rw [pow_succ] at h'
              omega
            have := ih (n / 2) k (Nat.div_lt_of_lt_mul hmul)
            simp [log2Aux, h2]
            omega
        · simp [log2Aux, h2]
    exact general n n 52 (by omega)
  simp [roundToDouble, hlog]

theorem map_fst_mapIdx_pair {α β : Type} (l : List α) (g : ℕ → α → β) :
    (l.mapIdx fun i a => (a, g i a)).map Prod.fst = l := by
  apply List.ext_getElem
  · simp
  · intro i h1 h2
    simp [List.getElem_mapIdx]

theorem headD_mem {α : Type} {l : List α} (h : l ≠ []) (d : α) : l.headD d ∈ l := by
  cases l with
  | nil => exact absurd rfl h
  | cons x t => simp

theorem getLastD_mem {α : Type} {l : List α} (h : l ≠ []) (d : α) : l.getLastD d ∈ l := by
  rw [List.getLastD_eq_getLast?, List.getLast?_eq_getLast l h, Option.getD_some]
  exact List.getLast_mem h

theorem sorted_headD_le {s : List ℚ} (hs : List.Sorted (· ≤ ·) s) {a : ℚ}
    (ha : a ∈ s) : s.headD 0 ≤ a := by
  cases s with
  | nil => cases ha
  | cons x t =>
    rcases List.mem_cons.mp ha with rfl | hat
    · simp
    · simpa using (List.sorted_cons.mp hs).1 a hat

theorem le_sorted_getLastD {s : List ℚ} (hs : List.Sorted (· ≤ ·) s) {a : ℚ}
    (ha : a ∈ s) : a ≤ s.getLastD 0 := by
  induction s with
  | nil => cases ha
  | cons x t ih =>
    cases t with
    | nil =>
      rcases List.mem_cons.mp ha with rfl | h
      · simp [List.getLastD]
      · cases h
    | cons y u =>
      rw [List.getLastD_eq_getLast?, List.getLast?_cons_cons, ← List.getLastD_eq_getLast?]
      have hst := (List.sorted_cons.mp hs).2
      rcases List.mem_cons.mp ha with rfl | hat
      · have hmem : (y :: u).getLastD 0 ∈ y :: u := getLastD_mem (by simp) 0
        exact le_trans ((List.sorted_cons.mp hs).1 _ hmem) le_rfl
      · exact ih hst hat

/-- Function `hexToDec` agrees with the exact big-integer decode whenever the decoded
value is below `2 ^ 53`. -/
theorem hexToDec_exact_below (s : String) (h : hexDecodeBig s < 2 ^ 53) :
    hexToDec s = hexDecodeBig s :=
  roundToDouble_eq_of_lt h

/-- C4: the aggregator's median is computed over the ascending-sorted list —
for an already sorted list the odd case is the middle element and the even
case the mean of the two central elements; `medianOf [a, b] = (a + b) / 2`,
and for `a ≤ b ≤ c`, `medianOf [a, b, c] = b`. -/
theorem claim_C4 :
    (∀ numbers : List ℚ, List.Sorted (· ≤ ·) numbers →
      (numbers.length % 2 = 1 →
        medianOf numbers = numbers.getD ((numbers.length - 1) / 2) 0) ∧
      (numbers.length % 2 = 0 →
        medianOf numbers =
          (numbers.getD (numbers.length / 2) 0 + numbers.getD (numbers.length / 2 - 1) 0) / 2)) ∧
    (∀ a b : ℚ, medianOf [a, b] = (a + b) / 2) ∧
    (∀ a b c : ℚ, a ≤ b → b ≤ c → medianOf [a, b, c] = b) := by
  refine ⟨?_, ?_, ?_⟩
  · intro numbers hs
    have hsort : sortNumbers numbers = numbers := hs.insertionSort_eq
    constructor
    · intro hodd
      have : ¬ numbers.length % 2 = 0 := by omega
      simp [medianOf, hsort, this]
    · intro heven
      simp [medianOf, hsort, heven]
  · intro a b
    by_cases h : a ≤ b <;>
      simp [medianOf, sortNumbers, List.insertionSort, List.orderedInsert, h] <;>
      ring_nf
  · intro a b c hab hbc
    have hs : List.Sorted (· ≤ ·) [a, b, c] := by
      simp [List.sorted_cons]
      exact ⟨⟨hab, le_trans hab hbc⟩, hbc⟩
    have hsort : sortNumbers [a, b, c] = [a, b, c] := hs.insertionSort_eq
    simp [medianOf, hsort]

/-- C4 witness: the two- and three-element median laws at concrete inputs. -/
theorem claim_C4_witness :
    ((1 : ℚ) ≤ 2 ∧ (2 : ℚ) ≤ 3) ∧
    medianOf [1, 2] = (1 + 2) / 2 ∧ medianOf [1, 2, 3] = 2 :=
  ⟨⟨by norm_num, by norm_num⟩, claim_C4.2.1 1 2,
    claim_C4.2.2 1 2 3 (by norm_num) (by norm_num)⟩

/-- C6: if any of the three response arrays is empty, `fetchFeeHistory`
returns the oldest block id with an empty block list — a valid empty result. -/
theorem claim_C6 (numberOfBlocks : ℕ) (givenPercentiles : List ℕ)
    (response : EthFeeHistoryResponse)
    (h : response.baseFeePerGas = [] ∨ response.gasUsedRatio = [] ∨
      response.reward = []) :
    fetchFeeHistory numberOfBlocks givenPercentiles response =
      { startBlockId := response.oldestBlock, blocks := [] } := by
  rcases h with h | h | h <;> simp [fetchFeeHistory, h]

/-- C6 witness: the all-empty response of the repository's own test. -/
theorem claim_C6_witness :
    (([] : List String) = [] ∨ ([] : List ℚ) = [] ∨ ([] : List (List String)) = []) ∧
    fetchFeeHistory 5 [10, 20, 30]
        { oldestBlock := "0x0", baseFeePerGas := [], gasUsedRatio := [], reward := [] } =
      { startBlockId := "0x0", blocks := [] } :=
  ⟨Or.inl rfl,
    claim_C6 5 [10, 20, 30]
      { oldestBlock := "0x0", baseFeePerGas := [], gasUsedRatio := [], reward := [] }
      (Or.inl rfl)⟩

/-- C8: a second `updateWithAndStartPollingFor` for an item already fetched
is a no-op (one producer run in total); after `stopPolling` empties the queue
and cancels the timer, a later call runs the producer exactly once more and
re-subscribes the item like a first-ever subscribe. -/
theorem claim_C8 (st : PollerState) (item : PollItem) (h : item ∉ st.pollQueue) :
    updateWithAndStartPollingFor (updateWithAndStartPollingFor st item) item =
        updateWithAndStartPollingFor st item ∧
    (updateWithAndStartPollingFor st item).producerRuns.count item =
        st.producerRuns.count item + 1 ∧
    (stopPolling (updateWithAndStartPollingFor (updateWithAndStartPollingFor st item) item)).pollQueue = [] ∧
    (stopPolling (updateWithAndStartPollingFor (updateWithAndStartPollingFor st item) item)).intervalId = false ∧
    (updateWithAndStartPollingFor
        (stopPolling (updateWithAndStartPollingFor (updateWithAndStartPollingFor st item) item))
        item).producerRuns.count item = st.producerRuns.count item + 2 ∧
    (updateWithAndStartPollingFor
        (stopPolling (updateWithAndStartPollingFor (updateWithAndStartPollingFor st item) item))
        item).pollQueue = [item] ∧
    (updateWithAndStartPollingFor
        (stopPolling (updateWithAndStartPollingFor (updateWithAndStartPollingFor st item) item))
        item).intervalId = true := by
  refine ⟨?_, ?_, ?_, ?_, ?_, ?_, ?_⟩ <;>
    simp [updateWithAndStartPollingFor, stopPolling, h, List.count_append]

/-- C8 witness: the scenario at the initial scheduler state for the
`gasFeeEstimates` item. -/
theorem claim_C8_witness :
    (PollItem.gasFeeEstimates ∉ (⟨[], false, []⟩ : PollerState).pollQueue) ∧
    (updateWithAndStartPollingFor
        (updateWithAndStartPollingFor ⟨[], false, []⟩ .gasFeeEstimates)
        .gasFeeEstimates).producerRuns.count .gasFeeEstimates = 0 + 1 ∧
    (updateWithAndStartPollingFor
        (stopPolling (updateWithAndStartPollingFor
          (updateWithAndStartPollingFor ⟨[], false, []⟩ .gasFeeEstimates) .gasFeeEstimates))
        .gasFeeEstimates).producerRuns.count .gasFeeEstimates = 0 + 2 := by
  have h := claim_C8 ⟨[], false, []⟩ .gasFeeEstimates (by simp)
  exact ⟨by simp, by rw [h.1]; exact h.2.1, h.2.2.2.2.1⟩

set_option maxRecDepth 8000 in
/-- C1 counterexample: on the window with one block whose 10th-percentile fee
is `18450910929` wei and latest base fee `31571228041` wei, the program (IEEE
doubles throughout) renders the low tier's suggested max fee as
`"55.22932992245999"`, while the exact computation gives exactly
`55.22932992246` gwei — so the claimed full-fractional-precision rendering
with no rounding artifacts fails. -/
theorem claim_C1_counterexample :
    (calculateGasEstimatesForPriorityLevel .low 31571228041
        [[(10, 18450910929)]]).suggestedMaxFeePerGas = "55.22932992245999" ∧
    ratToDecString (((31571228041 : ℚ) * (12 / 10) +
        max ((18450910929 : ℚ) * (1 - 6 / 100)) 1000000000) / 1000000000) =
      "55.22932992246" ∧
    ("55.22932992245999" : String) ≠ "55.22932992246" :=
  ⟨by with_unfolding_all decide, by with_unfolding_all decide, by decide⟩

set_option maxRecDepth 8000 in
/-- C1 (amended): for every priority tier and every non-empty block window,
the aggregator computes `max(median ⊗ (1 ⊖ reduction), floor)` and
`baseFee ⊗ multiplier ⊕ suggestedMaxPriorityFee` in IEEE-double arithmetic,
divides by 1e9 in double arithmetic, and renders the result as the shortest
decimal string that reads back as the computed double (JavaScript `toString`)
— which can differ from the exact decimal; the claim's named example is
unaffected: base fee `98436555707` wei at multiplier `1.2` still renders as
exactly `118.1238668484` gwei of adjusted base fee. -/
theorem claim_C1_amended (priorityLevel : PriorityLevel) (latestBaseFeePerGas : ℚ)
    (blocks : List (List (ℕ × ℚ))) (hne : blocks ≠ []) :
    (calculateGasEstimatesForPriorityLevel priorityLevel latestBaseFeePerGas
          blocks).suggestedMaxPriorityFeePerGas =
      jsDoubleToString (weiToGwei
        (max
          (doubleMul
            (medianOf (blocks.map fun block =>
              priorityFeeAt block (SETTINGS_BY_PRIORITY_LEVEL priorityLevel).percentile))
            (doubleSub 1 (SETTINGS_BY_PRIORITY_LEVEL priorityLevel).priorityFeeReduction))
          (SETTINGS_BY_PRIORITY_LEVEL priorityLevel).minSuggestedMaxPriorityFeePerGas)) ∧
    (calculateGasEstimatesForPriorityLevel priorityLevel latestBaseFeePerGas
          blocks).suggestedMaxFeePerGas =
      jsDoubleToString (weiToGwei
        (doubleAdd
          (doubleMul latestBaseFeePerGas
            (SETTINGS_BY_PRIORITY_LEVEL priorityLevel).baseFeeMultiplier)
          (max
            (doubleMul
              (medianOf (blocks.map fun block =>
                priorityFeeAt block (SETTINGS_BY_PRIORITY_LEVEL priorityLevel).percentile))
              (doubleSub 1 (SETTINGS_BY_PRIORITY_LEVEL priorityLevel).priorityFeeReduction))
            (SETTINGS_BY_PRIORITY_LEVEL priorityLevel).minSuggestedMaxPriorityFeePerGas))) ∧
    jsDoubleToString (weiToGwei (doubleMul 98436555707 (roundRatToDouble (12 / 10)))) =
      "118.1238668484" := by
  refine ⟨rfl, rfl, ?_⟩
  with_unfolding_all decide

/-- C1 witness: the low tier on a one-block window whose latest base fee is
the documented `98436555707` wei. -/
theorem claim_C1_amended_witness :
    ([[((10 : ℕ), (1000000000 : ℚ))]] ≠ ([] : List (List (ℕ × ℚ)))) ∧
    (calculateGasEstimatesForPriorityLevel .low 98436555707
        [[((10 : ℕ), (1000000000 : ℚ))]]).suggestedMaxPriorityFeePerGas =
      jsDoubleToString (weiToGwei
        (max
          (doubleMul
            (medianOf ([[((10 : ℕ), (1000000000 : ℚ))]].map fun block =>
              priorityFeeAt block (SETTINGS_BY_PRIORITY_LEVEL .low).percentile))
            (doubleSub 1 (SETTINGS_BY_PRIORITY_LEVEL .low).priorityFeeReduction))
          (SETTINGS_BY_PRIORITY_LEVEL .low).minSuggestedMaxPriorityFeePerGas)) ∧
    jsDoubleToString (weiToGwei (doubleMul 98436555707 (roundRatToDouble (12 / 10)))) =
      "118.1238668484" :=
  ⟨by simp,
    (claim_C1_amended .low 98436555707 [[((10 : ℕ), (1000000000 : ℚ))]] (by simp)).1,
    (claim_C1_amended .low 98436555707 [[((10 : ℕ), (1000000000 : ℚ))]] (by simp)).2.2⟩

/-- C7: a hex string encoding `2 ^ 53 + 1` — a value gas quantities can reach —
is decoded exactly by the arbitrary-precision stage but narrowed by the
`parseInt` stage of `hexToDec` to the nearest IEEE double, `2 ^ 53`, losing
precision; only values below `2 ^ 53` survive the narrowing intact. -/
theorem claim_C7_evidence :
    hexDecodeBig "0x20000000000001" = 9007199254740993 ∧
    9007199254740993 = 2 ^ 53 + 1 ∧
    hexToDec "0x20000000000001" = 9007199254740992 ∧
    hexToDec "0x20000000000001" ≠ hexDecodeBig "0x20000000000001" ∧
    (∀ s : String, hexDecodeBig s < 2 ^ 53 → hexToDec s = hexDecodeBig s) :=
  ⟨by decide, by decide, by decide, by decide, hexToDec_exact_below⟩

/-- C2: whenever the primary branch of `_fetchGasFeeEstimateData` fails — the
fee-market fetch throws, the legacy fetch throws, or neither source is
compatible — the single `eth_gasPrice` probe decides the outcome: on success
the result is the `eth_gasPrice`-typed state (never `legacy`), and on failure
the whole call throws with the controller state left unchanged. -/
theorem claim_C2 (env : FetchEnv)
    (calculateTimeEstimate :
      String → String → GasFeeEstimatesValue → Option EstimatedGasFeeTimeBounds)
    (st : GasFeeState) (shouldUpdateState : Bool)
    (hfail :
      (getEIP1559Compatibility env = true ∧ env.fetchGasEstimates = .error ()) ∨
      (getEIP1559Compatibility env = false ∧
        env.getCurrentNetworkLegacyGasAPICompatibility = true ∧
        env.fetchLegacyGasPriceEstimates = .error ()) ∨
      (getEIP1559Compatibility env = false ∧
        env.getCurrentNetworkLegacyGasAPICompatibility = false)) :
    (∀ estimates, env.fetchEthGasPriceEstimate = .ok estimates →
      (fetchGasFeeEstimateData env calculateTimeEstimate st shouldUpdateState).1 =
        .ok { gasFeeEstimates := .ethGasPrice estimates
              estimatedGasFeeTimeBounds := none
              gasEstimateType := .ethGasPrice }) ∧
    (env.fetchEthGasPriceEstimate = .error () →
      (fetchGasFeeEstimateData env calculateTimeEstimate st shouldUpdateState).1 =
          .error "Gas fee/price estimation failed." ∧
      (fetchGasFeeEstimateData env calculateTimeEstimate st shouldUpdateState).2 = st) := by
  constructor
  · intro estimates heth
    rcases hfail with ⟨hc, hf⟩ | ⟨hc, hl, hf⟩ | ⟨hc, hl⟩
    · simp [fetchGasFeeEstimateData, hc, hf, heth]
    · simp [fetchGasFeeEstimateData, hc, hl, hf, heth]
    · simp [fetchGasFeeEstimateData, hc, hl, heth]
  · intro heth
    rcases hfail with ⟨hc, hf⟩ | ⟨hc, hl, hf⟩ | ⟨hc, hl⟩
    · simp [fetchGasFeeEstimateData, hc, hf, heth]
    · simp [fetchGasFeeEstimateData, hc, hl, hf, heth]
    · simp [fetchGasFeeEstimateData, hc, hl, heth]

/-- C2 witness: a fee-market-compatible network whose fee-market fetch throws
falls back to the successful `eth_gasPrice` probe — not to legacy, although
the legacy source is available and compatible. -/
theorem claim_C2_witness :
    (getEIP1559Compatibility envFeeMarketThrows = true ∧
      envFeeMarketThrows.fetchGasEstimates = .error ()) ∧
    envFeeMarketThrows.fetchEthGasPriceEstimate = .ok { gasPrice := "1" } ∧
    (fetchGasFeeEstimateData envFeeMarketThrows (fun _ _ _ => none) defaultState true).1 =
      .ok { gasFeeEstimates := .ethGasPrice { gasPrice := "1" }
            estimatedGasFeeTimeBounds := none
            gasEstimateType := .ethGasPrice } :=
  ⟨⟨rfl, rfl⟩, rfl,
    (claim_C2 envFeeMarketThrows (fun _ _ _ => none) defaultState true
        (Or.inl ⟨rfl, rfl⟩)).1 { gasPrice := "1" } rfl⟩

/-- C9 (amended): when the fee-market branch succeeds, the result's type is
`fee-market`, and its time bounds are the external `calculateTimeEstimate`
applied to the fresh medium tier's suggested fees (and the prior state's
`gasFeeEstimates`) when the prior state's `gasEstimateType` is `fee-market` —
but the empty bounds `{}` otherwise; with `shouldUpdateState` the same three
fields are committed. -/
theorem claim_C9_amended (env : FetchEnv)
    (calculateTimeEstimate :
      String → String → GasFeeEstimatesValue → Option EstimatedGasFeeTimeBounds)
    (st : GasFeeState) (shouldUpdateState : Bool) (estimates : GasFeeEstimates)
    (hcompat : getEIP1559Compatibility env = true)
    (hfetch : env.fetchGasEstimates = .ok estimates) :
    (fetchGasFeeEstimateData env calculateTimeEstimate st shouldUpdateState).1 =
      .ok { gasFeeEstimates := .feeMarket estimates
            estimatedGasFeeTimeBounds :=
              if st.gasEstimateType = .feeMarket then
                calculateTimeEstimate estimates.medium.suggestedMaxPriorityFeePerGas
                  estimates.medium.suggestedMaxFeePerGas st.gasFeeEstimates
              else none
            gasEstimateType := .feeMarket } ∧
    (shouldUpdateState = true →
      (fetchGasFeeEstimateData env calculateTimeEstimate st shouldUpdateState).2 =
        { st with
          gasFeeEstimates := .feeMarket estimates
          estimatedGasFeeTimeBounds :=
            if st.gasEstimateType = .feeMarket then
              calculateTimeEstimate estimates.medium.suggestedMaxPriorityFeePerGas
                estimates.medium.suggestedMaxFeePerGas st.gasFeeEstimates
            else none
          gasEstimateType := .feeMarket }) := by
  constructor
  · by_cases hst : st.gasEstimateType = .feeMarket <;>
      simp [fetchGasFeeEstimateData, getTimeEstimate, hcompat, hfetch, hst]
  · intro hu
    subst hu
    by_cases hst : st.gasEstimateType = .feeMarket <;>
      simp [fetchGasFeeEstimateData, getTimeEstimate, hcompat, hfetch, hst]

/-- C9 counterexample: on the first-ever successful fee-market fetch (prior
state `none`), the returned `estimatedGasFeeTimeBounds` is the empty `{}`,
although the external time-estimation function applied to the fresh medium
tier's suggested fees returns nonempty bounds — so the bounds do not equal
that application. -/
theorem claim_C9_counterexample :
    (fetchGasFeeEstimateData envFeeMarketSucceeds calcTimeAlwaysBounds defaultState true).1 =
      .ok { gasFeeEstimates := .feeMarket sampleFeeMarketEstimates
            estimatedGasFeeTimeBounds := none
            gasEstimateType := .feeMarket } ∧
    calcTimeAlwaysBounds
        sampleFeeMarketEstimates.medium.suggestedMaxPriorityFeePerGas
        sampleFeeMarketEstimates.medium.suggestedMaxFeePerGas
        defaultState.gasFeeEstimates =
      some { lowerTimeBound := some 15000, upperTimeBound := some 45000 } ∧
    (none : Option EstimatedGasFeeTimeBounds) ≠
      some { lowerTimeBound := some 15000, upperTimeBound := some 45000 } :=
  ⟨rfl, rfl, by simp⟩

/-- C9 witness: the amended statement at the concrete first-fetch scenario. -/
theorem claim_C9_amended_witness :
    (getEIP1559Compatibility envFeeMarketSucceeds = true ∧
      envFeeMarketSucceeds.fetchGasEstimates = .ok sampleFeeMarketEstimates) ∧
    (fetchGasFeeEstimateData envFeeMarketSucceeds calcTimeAlwaysBounds defaultState true).1 =
      .ok { gasFeeEstimates := .feeMarket sampleFeeMarketEstimates
            estimatedGasFeeTimeBounds :=
              if defaultState.gasEstimateType = .feeMarket then
                calcTimeAlwaysBounds
                  sampleFeeMarketEstimates.medium.suggestedMaxPriorityFeePerGas
                  sampleFeeMarketEstimates.medium.suggestedMaxFeePerGas
                  defaultState.gasFeeEstimates
              else none
            gasEstimateType := .feeMarket } :=
  ⟨⟨rfl, rfl⟩,
    (claim_C9_amended envFeeMarketSucceeds calcTimeAlwaysBounds defaultState true
        sampleFeeMarketEstimates rfl rfl).1⟩

/-- C10 (amended): the congestion poll item writes its boolean into the
state's `isNetworkCongested` field when the network/account is fee-market
compatible; in the incompatible short-circuit case it returns `false` and
leaves the state untouched. -/
theorem claim_C10_amended (env : FetchEnv) (feeHistoryBlocks : List (List (ℕ × ℚ)))
    (st : GasFeeState) :
    (getEIP1559Compatibility env = true →
      (determineWhetherNetworkCongested env feeHistoryBlocks st).1 =
        networkCongestedOf feeHistoryBlocks ∧
      (determineWhetherNetworkCongested env feeHistoryBlocks st).2 =
        { st with isNetworkCongested := networkCongestedOf feeHistoryBlocks }) ∧
    (getEIP1559Compatibility env = false →
      determineWhetherNetworkCongested env feeHistoryBlocks st = (false, st)) := by
  constructor <;> intro h <;> simp [determineWhetherNetworkCongested, h]

/-- C10 counterexample: on a non-fee-market-compatible network the poll item
returns `false` but does not write it — the state keeps its previous `true`,
so the claimed unconditional write does not happen. -/
theorem claim_C10_counterexample :
    (determineWhetherNetworkCongested envIncompatible [] congestedState).1 = false ∧
    (determineWhetherNetworkCongested envIncompatible [] congestedState).2.isNetworkCongested = true ∧
    (determineWhetherNetworkCongested envIncompatible [] congestedState).2.isNetworkCongested ≠
      (determineWhetherNetworkCongested envIncompatible [] congestedState).1 :=
  ⟨rfl, rfl, by decide⟩

/-- C10 witness: the amended statement at concrete compatible and incompatible
environments. -/
theorem claim_C10_amended_witness :
    (getEIP1559Compatibility envFeeMarketSucceeds = true ∧
      (determineWhetherNetworkCongested envFeeMarketSucceeds [] congestedState).2 =
        { congestedState with isNetworkCongested := networkCongestedOf [] }) ∧
    (getEIP1559Compatibility envIncompatible = false ∧
      determineWhetherNetworkCongested envIncompatible [] congestedState =
        (false, congestedState)) :=
  ⟨⟨rfl, ((claim_C10_amended envFeeMarketSucceeds [] congestedState).1 rfl).2⟩,
    ⟨rfl, (claim_C10_amended envIncompatible [] congestedState).2 rfl⟩⟩

/-- C5: on a well-formed non-empty `eth_feeHistory` response for `N` blocks
(base-fee array of `N + 1` entries), the fetcher returns exactly `N` block
entries, each built from the first `N` base fees, carrying the response's
gas-used ratio and one decoded priority fee per requested percentile,
positionally aligned with the de-duplicated ascending percentile list; decoded
values below `2 ^ 53` match the exact big-integer decode. -/
theorem claim_C5 (numberOfBlocks : ℕ) (givenPercentiles : List ℕ)
    (response : EthFeeHistoryResponse)
    (hbase : response.baseFeePerGas.length = numberOfBlocks + 1)
    (hgas : response.gasUsedRatio.length = numberOfBlocks)
    (hreward : response.reward.length = numberOfBlocks)
    (hpos : 0 < numberOfBlocks) :
    (fetchFeeHistory numberOfBlocks givenPercentiles response).startBlockId =
        response.oldestBlock ∧
    (fetchFeeHistory numberOfBlocks givenPercentiles response).blocks.length =
        numberOfBlocks ∧
    (∀ i, i < numberOfBlocks →
      (fetchFeeHistory numberOfBlocks givenPercentiles response).blocks.getD i default =
        { baseFeePerGas := hexToDec (response.baseFeePerGas.getD i "0x0")
          gasUsedRatio := response.gasUsedRatio.getD i 0
          priorityFeesByPercentile :=
            (sortNumbers givenPercentiles.dedup).mapIdx fun percentileIndex percentile =>
              (percentile,
               hexToDec ((response.reward.getD i []).getD percentileIndex "0x0")) }) ∧
    (∀ i, i < numberOfBlocks →
      ((fetchFeeHistory numberOfBlocks givenPercentiles
            response).blocks.getD i default).priorityFeesByPercentile.map Prod.fst =
        sortNumbers givenPercentiles.dedup) ∧
    (∀ s : String, hexDecodeBig s < 2 ^ 53 → hexToDec s = hexDecodeBig s) := by
  have hcond : 0 < response.baseFeePerGas.length ∧ 0 < response.gasUsedRatio.length ∧
      0 < response.reward.length := by omega
  have hlen : (fetchFeeHistory numberOfBlocks givenPercentiles response).blocks.length =
      numberOfBlocks := by
    simp [fetchFeeHistory, hcond, hbase]
  have hget : ∀ i, i < numberOfBlocks →
      (fetchFeeHistory numberOfBlocks givenPercentiles response).blocks.getD i default =
        { baseFeePerGas := hexToDec (response.baseFeePerGas.getD i "0x0")
          gasUsedRatio := response.gasUsedRatio.getD i 0
          priorityFeesByPercentile :=
            (sortNumbers givenPercentiles.dedup).mapIdx fun percentileIndex percentile =>
              (percentile,
               hexToDec ((response.reward.getD i []).getD percentileIndex "0x0")) } := by
    intro i hi
    have hi' : i < (fetchFeeHistory numberOfBlocks givenPercentiles response).blocks.length := by
      omega
    rw [List.getD_eq_getElem?_getD, List.getElem?_eq_getElem hi', Option.getD_some]
    have hitake : i < (response.baseFeePerGas.take numberOfBlocks).length := by
      simp [hbase]
      omega
    simp only [fetchFeeHistory, hcond, and_self, if_true, List.getElem_mapIdx]
    rw [List.getElem_take]
    congr 1
    · rw [List.getD_eq_getElem?_getD, List.getElem?_eq_getElem (by omega), Option.getD_some]
  · exact ⟨by simp [fetchFeeHistory, hcond], hlen, hget, fun i hi => by
      rw [hget i hi]
      exact map_fst_mapIdx_pair _ _, fun s h => hexToDec_exact_below s h⟩

/-- C5 witness: 5 blocks and 3 percentiles yield exactly 5 entries; the first
entry carries all 3 percentile keys and the exact decode of `0x16eb46a3bb`. -/
theorem claim_C5_witness :
    (sampleFeeHistoryResponse.baseFeePerGas.length = 5 + 1 ∧
      sampleFeeHistoryResponse.gasUsedRatio.length = 5 ∧
      sampleFeeHistoryResponse.reward.length = 5 ∧ (0 : ℕ) < 5) ∧
    (fetchFeeHistory 5 [10, 20, 30] sampleFeeHistoryResponse).blocks.length = 5 ∧
    ((fetchFeeHistory 5 [10, 20, 30] sampleFeeHistoryResponse).blocks.getD 0
        default).priorityFeesByPercentile.map Prod.fst = [10, 20, 30] ∧
    ((fetchFeeHistory 5 [10, 20, 30] sampleFeeHistoryResponse).blocks.getD 0
        default).baseFeePerGas = 98436555707 := by
  have h := claim_C5 5 [10, 20, 30] sampleFeeHistoryResponse rfl rfl rfl (by omega)
  refine ⟨⟨rfl, rfl, rfl, by omega⟩, h.2.1, ?_, ?_⟩
  · rw [h.2.2.2.1 0 (by omega)]
    decide
  · rw [h.2.2.1 0 (by omega)]
    decide

set_option maxRecDepth 8000 in
/-- C3 counterexample: at the claim's own named boundary — collected fees
`{100, 110}` — the program is NOT congested: the IEEE-double product
`100 × 1.1` is `7740561859543041 / 2 ^ 46`, strictly above `110`, so the
comparison `max ≥ min × 1.1` fails although `110 = 100 × 11/10` exactly. -/
theorem claim_C3_counterexample :
    networkCongestedOf [[(50, 100)], [(50, 110)]] = false ∧
    doubleMul 100 (roundRatToDouble (11 / 10)) = 7740561859543041 / 2 ^ 46 ∧
    (110 : ℚ) < doubleMul 100 (roundRatToDouble (11 / 10)) := by
  have hval : doubleMul 100 (roundRatToDouble (11 / 10)) = 7740561859543041 / 2 ^ 46 :=
    Rat.ext (by with_unfolding_all decide) (by with_unfolding_all decide)
  refine ⟨by with_unfolding_all decide, hval, ?_⟩
  rw [hval]
  norm_num

set_option maxRecDepth 8000 in
/-- C3 (amended): when fee-market compatible, the congestion check collects
the 50th-percentile fee of each block (discarding blocks lacking it), sorts
ascending, and returns `true` exactly when the maximum is at least the
IEEE-double product of the minimum with the literal `1.1` (the double nearest
`11/10`, slightly above it) — so `min = 100, max = 110` is NOT congested
(the product is `110.00000000000001`), `100`/`109` is not, and `100`/`111`
is; an empty collection yields `false`. -/
theorem claim_C3_amended (env : FetchEnv) (st : GasFeeState)
    (feeHistoryBlocks : List (List (ℕ × ℚ)))
    (hcompat : getEIP1559Compatibility env = true) :
    (determineWhetherNetworkCongested env feeHistoryBlocks st).1 =
        networkCongestedOf feeHistoryBlocks ∧
    (feeHistoryBlocks.filterMap (fun block => block.lookup 50) = [] →
      networkCongestedOf feeHistoryBlocks = false) ∧
    (∀ minPriorityFee maxPriorityFee : ℚ,
      (feeHistoryBlocks.filterMap fun block => block.lookup 50).minimum =
          (minPriorityFee : WithTop ℚ) →
      (feeHistoryBlocks.filterMap fun block => block.lookup 50).maximum =
          (maxPriorityFee : WithBot ℚ) →
      (networkCongestedOf feeHistoryBlocks = true ↔
        doubleMul minPriorityFee (roundRatToDouble (11 / 10)) ≤ maxPriorityFee)) ∧
    networkCongestedOf [[(50, 100)], [(50, 110)]] = false ∧
    networkCongestedOf [[(50, 100)], [(50, 109)]] = false ∧
    networkCongestedOf [[(50, 100)], [(50, 111)]] = true := by
  refine ⟨?_, ?_, ?_, ?_, ?_, ?_⟩
  · simp [determineWhetherNetworkCongested, hcompat]
  · intro h
    simp [networkCongestedOf, h, sortNumbers]
  · intro minPriorityFee maxPriorityFee hmin hmax
    obtain ⟨hminMem, hminLe⟩ := List.minimum_eq_coe_iff.mp hmin
    obtain ⟨hmaxMem, hmaxLe⟩ := List.maximum_eq_coe_iff.mp hmax
    have hperm : (sortNumbers (feeHistoryBlocks.filterMap fun block =>
        block.lookup 50)).Perm (feeHistoryBlocks.filterMap fun block => block.lookup 50) :=
      List.perm_insertionSort _ _
    have hsorted : List.Sorted (· ≤ ·)
        (sortNumbers (feeHistoryBlocks.filterMap fun block => block.lookup 50)) :=
      List.sorted_insertionSort _ _
    have hne : sortNumbers (feeHistoryBlocks.filterMap fun block => block.lookup 50) ≠ [] := by
      intro hnil
      have := hperm.mem_iff.mpr hminMem
      rw [hnil] at this
      cases this
    have hhead : (sortNumbers (feeHistoryBlocks.filterMap fun block =>
        block.lookup 50)).headD 0 = minPriorityFee :=
      le_antisymm (sorted_headD_le hsorted (hperm.mem_iff.mpr hminMem))
        (hminLe _ (hperm.mem_iff.mp (headD_mem hne 0)))
    have hlast : (sortNumbers (feeHistoryBlocks.filterMap fun block =>
        block.lookup 50)).getLastD 0 = maxPriorityFee :=
      le_antisymm (hmaxLe _ (hperm.mem_iff.mp (getLastD_mem hne 0)))
        (le_sorted_getLastD hsorted (hperm.mem_iff.mpr hmaxMem))
    have hpos : 0 < (sortNumbers (feeHistoryBlocks.filterMap fun block =>
        block.lookup 50)).length := List.length_pos.mpr hne
    simp only [networkCongestedOf, hpos, if_true, hhead, hlast]
    exact decide_eq_true_iff
  · with_unfolding_all decide
  · with_unfolding_all decide
  · with_unfolding_all decide

/-- C3 witness: a congested window `{100, 111}` and the two boundary windows
under a compatible environment. -/
theorem claim_C3_amended_witness :
    getEIP1559Compatibility envFeeMarketSucceeds = true ∧
    (determineWhetherNetworkCongested envFeeMarketSucceeds
        [[(50, 100)], [(50, 111)]] defaultState).1 =
      networkCongestedOf [[(50, 100)], [(50, 111)]] ∧
    networkCongestedOf [[(50, 100)], [(50, 111)]] = true ∧
    networkCongestedOf [[(50, 100)], [(50, 110)]] = false :=
  ⟨rfl,
    (claim_C3_amended envFeeMarketSucceeds defaultState [[(50, 100)], [(50, 111)]] rfl).1,
    (claim_C3_amended envFeeMarketSucceeds defaultState [[(50, 100)], [(50, 111)]] rfl).2.2.2.2.2,
    (claim_C3_amended envFeeMarketSucceeds defaultState [[(50, 100)], [(50, 110)]] rfl).2.2.2.1⟩